import Mathlib

/-!
Verification of the jp-drama-agent backend (`src/app/main.py`): the daily
quota tracker (`check_quota`), the persona resolver (`build_system_prompt`),
and the chat/TTS dispatch (`agent_chat`, `call_llm`, `tts`).

Time is modelled as a natural number of seconds; `timedelta(days=1)` is
86400 seconds.  The in-memory store `_usage : dict[str, dict]` is modelled
as an association list from identity to `UsageInfo`.  The external LLM/TTS
provider is a black box, so its outcome is passed in as an
`Except String String` (error message, or returned content).
-/

set_option maxHeartbeats 1000000

namespace JpDrama

/-- One entry of the `_usage` dict: `{"count": int, "reset": datetime}`. -/
structure UsageInfo where
  count : Nat
  reset : Nat
  deriving DecidableEq, Repr

/-- `FREE_LIMIT_PER_DAY = 10` in `main.py`. -/
def FREE_LIMIT_PER_DAY : Nat := 10

/-- `timedelta(days=1)` in seconds. -/
def ONE_DAY : Nat := 86400

/-- The module-level `_usage` dict, as an association list. -/
abbrev QuotaStore := List (String × UsageInfo)

/-- Dict read: `_usage.get(user_id)`. -/
def storeGet : QuotaStore → String → Option UsageInfo
  | [], _ => none
  | (k, v) :: rest, u => if k = u then some v else storeGet rest u

/-- Dict write: `_usage[user_id] = {...}`, replacing any existing entry. -/
def storeSet : QuotaStore → String → UsageInfo → QuotaStore
  | [], u, v => [(u, v)]
  | (k, v') :: rest, u, v =>
      if k = u then (u, v) :: rest else (k, v') :: storeSet rest u v

/-- Outcome of `check_quota`: fall through (admitted) or an `HTTPException`. -/
inductive QuotaResult where
  | admitted
  | rejected (status : Nat) (detail : String)
  deriving DecidableEq, Repr

/-- The fixed `detail` string of the 429 raised by `check_quota`. -/
def quotaRejectDetail : String :=
  "今日免费体验次数已用完。\n如果你觉得「ことの葉スタジオ（言叶日语场景工坊）」对你有帮助，可以联系作者开通会员或长期版。"

/-- `check_quota(user_id)` from `main.py` lines 33-52, with the ambient
state (`_usage`, the current time) made explicit. -/
def check_quota (st : QuotaStore) (now : Nat) (user_id : String) :
    QuotaResult × QuotaStore :=
  match storeGet st user_id with
  | none => (.admitted, storeSet st user_id ⟨1, now + ONE_DAY⟩)
  | some info =>
      if now ≥ info.reset then
        (.admitted, storeSet st user_id ⟨1, now + ONE_DAY⟩)
      else if info.count ≥ FREE_LIMIT_PER_DAY then
        (.rejected 429 quotaRejectDetail, st)
      else
        (.admitted, storeSet st user_id ⟨info.count + 1, info.reset⟩)

/-- Replay a chronological list of `(now, user_id)` requests against an
initially empty `_usage` dict, keeping only the final store. -/
def runQuota (reqs : List (Nat × String)) : QuotaStore :=
  reqs.foldl (fun st r => (check_quota st r.1 r.2).2) []

/-- Alias normalization, as written twice in `main.py` (inside
`build_system_prompt`, lines 1627-1632, and inside `agent_chat`,
lines 1840-1845): `tutor → daily`, `otaku_waifu → comfort_soft`,
`otaku_boyfriend → comfort_calm`, all other strings unchanged. -/
def normalize_mode (mode : String) : String :=
  if mode = "tutor" then "daily"
  else if mode = "otaku_waifu" then "comfort_soft"
  else if mode = "otaku_boyfriend" then "comfort_calm"
  else mode

/-- `build_system_prompt(mode)` from `main.py` lines 1625-1784. -/
def build_system_prompt (mode : String) : String :=
  let m := normalize_mode mode
  if m = "daily" then
    "你是「ことの葉デイリー」，面向在日或准备来日本生活的华语用户。\n核心：教用户在超市、便利店、电车、简单社交等场景中敢开口的自然日语。\n输出：\n【1. 日文句子】自然不生硬。\n【2. 读音（平假名）】整句平假名。\n【3. 中文解释】说明语气、场景、礼貌程度、微妙差别。\n【4. 延伸】1-2 个类似表达或常见替换说法。\n避免奇怪直译和只存在于动漫里的夸张台词。"
  else if m = "service" then
    "你是「ことの葉サービストーク」，专门处理日本各类服务业场景的语言教练。\n涵盖：餐厅、咖啡店、居酒屋、便利店、百货、服装店、药妆店、理发店、美甲、美发沙龙等。\n需同时支持：店员/店长视角 & 顾客视角，让对话自然、有礼貌、符合日本服务业习惯。\n输出结构：\n【1. 日文句子】1-3句，对应用户身份（店员/老板/顾客）。\n【2. 读音（平假名）】\n【3. 中文解释】说明语气、敬语等级、适用场景（连锁店/小店/熟客等）。\n【4. 延伸】补充1-3个高频表达，如欢迎用语、推荐、拒绝、道歉、提醒规则等。\n不教无礼或过度油腻说法，强调专业友善。"
  else if m = "office" then
    "你是「ことの葉オフィス先輩」，日本职场沟通教练。\n专注：邮件、聊天工具、会议、电话、请假、致谢、道歉、催进度等。\n输出包含句子＋平假名＋中文解释，重点讲敬语等级、上下关系与潜台词。"
  else if m = "campus" then
    "你是「ことの葉キャンパスナビ」，留学与校园场景教练。\n面向来日本读语言学校、专门学校、大学、大学院的学生。\n包括面试、自我介绍、课堂发言、研究室交流、和老师同学相处、打工沟通。\n使用：日文句子＋平假名＋中文解释＋延伸表达，突出礼貌、自然、自信。"
  else if m = "family" then
    "你是「ことの葉ファミリーサポート」，专注家庭与学校沟通。\n面向在日有孩子的家长，涵盖多种家庭背景。\n帮助写联络本、和保育园/学校老师沟通、说明生活与家庭情况、表达感谢和担忧。\n风格温和、不评判，给家长既自然礼貌又保护孩子的表达方式。\n输出：日文句子＋平假名＋中文解释＋简短场景说明。"
  else if m = "parenting" then
    "你是「ことの葉ペアレンティング」，亲子沟通与教育表达教练。\n帮助家长用自然、尊重的日语和孩子沟通：提醒、表扬、设规则、安抚情绪、鼓励坚持等。\n避免辱骂、威胁和恐吓语言，倡导正向养育。\n输出：\n【日文句子】1-2句，可直接对孩子说；如有年龄信息，自动调整难度。\n【读音（平假名）】\n【中文解释】标注语气和适合年龄段。\n【延伸】给更温柔/更坚定等替代表达。"
  else if m = "medical" then
    "你是「ことの葉メディカル会話」，日本医院/诊所/药局就诊时的语言教练。\n对象：成人患者和带孩子看病的家长。\n只提供如何【说明症状】【询问信息】【听懂常见用语】的语言示例，不做诊断，不给医疗结论。\n输出建议：\n【1. 日文句子】1-3句，包含症状、时间、部位、程度等关键信息。\n【2. 读音（平假名）】\n【3. 中文解释】说明这几句传达了什么、是否礼貌。\n【4. 常见词汇补充】1-5个：日文＋平假名＋中文，例如发烧、咳嗽、小儿科、挂号等。\n如症状严重，请提醒用户务必听从医生与专业机构判断。"
  else if m = "housing" then
    "你是「ことの葉ライフサポート」，负责租房、邻里关系及基础手续相关表达。\n涵盖：找房、中介沟通、签约、续约、退租、报修、邻居噪音、垃圾规则、区役所/市役所基础手续等。\n输出结构：日文句子＋平假名＋中文解释＋如有需要的小提示，强调礼貌、清晰、避免冲突。"
  else if m = "travel" then
    "你是「ことの葉トラベルコンシェルジュ」，日本旅行日语向导。\n教用户在机场、车站、餐厅、商店、药妆店、景点，用1-2句解决问题。\n输出：简单礼貌的日文句子＋平假名＋中文解释，优先好记好用。"
  else if m = "kansai" then
    "你是「ことの葉関西ことば」，教用户在理解标准日语的基础上，安全、有趣地接触关西地区（日语）口音和表达（以大阪周边为主）。\n原则：\n1. 先给【标准日语版本】，再给【关西说法】，不只给方言，避免听不懂。\n2. 说明哪些适合朋友之间・关西本地日常，哪些不适合对上司、客户或正式场合。\n3. 不强化刻板印象，不教攻击性或过度粗鲁表达。\n输出结构：\n【标准日语】一句自然说法。\n【关西版本】对应的关西ことば说法。\n【读音（平假名）】以关西版本为主，标注读音。\n【中文解释】说明语气差异、适用场景，提醒使用边界。\n适合作为“通过关西腔增加听感与趣味”的进阶学习入口。"
  else if m = "culture" then
    "你是「ことの葉カルチャートーク」，负责动漫、日剧、综艺、游戏等流行文化相关的日语表达。\n帮用户用自然日语聊作品、角色、演员、梗、推，不显得尴尬或用错场合。\n每次给：日文表达＋平假名＋中文说明（语气、是否粉丝向/圈内用、适用场景）。"
  else if m = "gossip" then
    "你是「ことの葉ご近所トーク」，练习日本式轻松八卦和闲聊表达的教练。\n场景：妈妈友、邻居、同事之间的聊天。\n原则：只用匿名化/泛化例子，不点名现实人物，不造谣，不鼓励攻击或歧视。\n教委婉表达、含蓄评论和有分寸的吐槽，帮助用户掌握日本式社交分寸。\n输出：日文句子＋平假名＋中文解释＋1-3个相关安全用语。"
  else if m = "comfort_soft" then
    "你是「ことの葉コンフォート・柔」，暖心日语陪练（柔和版）。\n先用2-4句自然、温柔的日语（可少量夹中文）回应和安慰用户，再教1个温暖且真实常用的表达：日文＋平假名＋简短中文说明。\n不擦边、不色情，像亲近朋友一样。"
  else if m = "comfort_calm" then
    "你是「ことの葉コンフォート・穏」，沉稳日语陪练（冷静版）。\n像可靠的日本前辈/同事/朋友，先用2-4句自然日语表达理解和建议，再给出1个适合对上司/同事/家人使用的得体表达：日文＋平假名＋简短中文说明。"
  else
    "你是一个友好的日语学习助手，面向中文母语用户，用自然日语+少量中文解释，给出简洁、实用、可以直接在日本使用的表达。"

/-- The generic fallback persona (the final `return` of
`build_system_prompt`, lines 1781-1784). -/
def fallbackPrompt : String :=
  "你是一个友好的日语学习助手，面向中文母语用户，用自然日语+少量中文解释，给出简洁、实用、可以直接在日本使用的表达。"

/-- The modes that get the generic structured wrapper in `agent_chat`
(line 1850). -/
def structuredModes : List String :=
  ["daily", "service", "office", "campus", "family", "parenting", "housing", "travel"]

/-- The construction of `user_message` in `agent_chat`, lines 1850-1928:
each (already normalized) mode wraps `req.message` into a fixed template;
unknown modes pass the message through unchanged. -/
def wrap_message (mode message : String) : String :=
  if structuredModes.contains mode then
    "请严格按以下结构输出，内容简洁实用，适合中文母语者：\n【1. 日文句子】\n【2. 读音（平假名）】\n【3. 中文解释】说明语气、场景、礼貌程度及注意点。\n【4. 延伸】如有必要，给1-2个类似或更自然的替代表达。\n我的具体需求是：" ++ message
  else if mode = "medical" then
    "这是医疗就诊相关的语言需求，请只从【如何向医生/护士/药剂师清楚说明情况】、【如何听懂常见用语】的角度回答，不做诊断，不替代医生。\n请按以下结构输出：\n【1. 日文句子】1-3句，帮助说明当前症状或需求。\n【2. 读音（平假名）】\n【3. 中文解释】\n【4. 常见词汇补充】1-5个相关单词/短语：日文＋平假名＋中文。\n如症状严重，请提醒务必遵从日本医生与专业机构判断。\n我的具体情况是：" ++ message
  else if mode = "kansai" then
    "请用下面结构教我一个例子，通过对比标准日语和关西ことば来学习：\n【标准日语】\n【关西版本】\n【读音（平假名）】（以关西版本为主）\n【中文解释】说明差异、语气、适合对谁说，提醒不要在正式场合乱用。\n请使用自然、真实但不过分粗鲁的关西表达，只用虚构/一般场景，不针对真实个人。\n我的具体内容是：" ++ message
  else if mode = "culture" then
    "请围绕动漫、日剧、综艺、游戏等话题，给出自然说法，避免中式尴尬。\n并教1个相关表达：\n【日文表达】\n【读音（平假名）】\n【中文说明】语气、是否粉丝向/圈内用、适用场景。\n我的具体话题是：" ++ message
  else if mode = "gossip" then
    "请用轻松但不恶意的日语，模拟日本人之间的日常闲聊/小八卦场景，例如妈妈友、邻居、同事之间的聊天。只使用虚构或泛化人物，不点名真实人物，不造谣、不鼓励攻击或歧视。\n结构：\n【日文句子】1-2句，自然口语。\n【读音（平假名）】\n【中文解释】说明语气和适用关系。\n【关键词补充】1-3个相关委婉表达。\n我的具体话题是：" ++ message
  else if mode = "comfort_soft" then
    "请先用2-4句自然、温柔的日语（可少量夹中文）回应和安慰我，然后教我1个温暖常用的表达：\n【日文表达】\n【读音（平假名）】\n【中文说明】一句话说明在日本日常或亲密关系中如何自然使用。\n我的具体情况是：" ++ message
  else if mode = "comfort_calm" then
    "请先用2-4句自然日语，像可靠前辈一样冷静支持或给建议，然后给出1个适合对上司/同事/家人使用的得体表达：\n【日文表达】\n【读音（平假名）】\n【中文说明】一句话说明适用场景和语气。\n我的具体情况是：" ++ message
  else
    message

/-- The persona resolution performed by `agent_chat` before the provider
call: normalize the mode once, then take the system instruction and the
wrapped user message for the normalized mode. -/
def resolvePersona (mode message : String) : String × String :=
  let m := normalize_mode mode
  (build_system_prompt m, wrap_message m message)

/-- Python truthiness of an optional environment string
(`os.getenv` yields `None` when unset); `None` and `""` are falsy. -/
def truthy : Option String → Bool
  | none => false
  | some s => s != ""

/-- Result of an HTTP handler: either a payload or an `HTTPException`
with a status code and a detail string. -/
inductive HttpResult (α : Type) where
  | ok (value : α)
  | httpError (status : Nat) (detail : String)
  deriving DecidableEq, Repr

/-- `call_llm(system_prompt, user_message)` from `main.py` lines 1789-1802.
The provider call `client.chat.completions.create` is a black box whose
outcome (`Except`: raised-exception text, or returned content) is an
argument. -/
def call_llm (apiKey model : Option String) (system_prompt user_message : String)
    (provider : Except String String) : HttpResult String :=
  if ¬ (truthy apiKey && truthy model) then
    .httpError 500 "LLM configuration missing"
  else
    match provider with
    | .ok content => .ok content
    | .error e => .httpError 500 ("LLM request failed: " ++ e)

/-- The outcome of a request to `POST /agent/chat`. -/
inductive ChatOutcome where
  /-- FastAPI/pydantic rejected the body before the handler ran (422),
  because `mode` is not one of the `Literal` values of `ChatRequest`. -/
  | validationError
  | httpError (status : Nat) (detail : String)
  /-- `ChatResponse(reply=...)`. -/
  | success (reply : String)
  deriving DecidableEq, Repr

/-- `agent_chat(req)` from `main.py` lines 1834-1931, for an
already-validated request: quota check, alias normalization, persona and
message-template resolution, LLM call.  Returns the outcome together with
the final `_usage` store. -/
def agent_chat (st : QuotaStore) (now : Nat) (user_id mode message : String)
    (apiKey model : Option String) (provider : Except String String) :
    ChatOutcome × QuotaStore :=
  match check_quota st now user_id with
  | (.rejected status detail, st') => (.httpError status detail, st')
  | (.admitted, st') =>
      let m := normalize_mode mode
      let system_prompt := build_system_prompt m
      let user_message := wrap_message m message
      match call_llm apiKey model system_prompt user_message provider with
      | .httpError status detail => (.httpError status detail, st')
      | .ok reply => (.success reply, st')

/-- The `Literal` values of `ChatRequest.mode` (`main.py` lines 1591-1610). -/
def chatModeLiterals : List String :=
  ["daily", "service", "office", "campus", "family", "parenting", "medical",
   "housing", "travel", "kansai", "culture", "gossip", "comfort_soft",
   "comfort_calm", "tutor", "otaku_waifu", "otaku_boyfriend"]

/-- Whether a mode string passes pydantic validation of `ChatRequest.mode`. -/
def validChatMode (mode : String) : Bool :=
  chatModeLiterals.contains mode

/-- `POST /agent/chat` as seen by the caller: pydantic validates the body
against `ChatRequest` (rejecting any `mode` outside the `Literal` set with
a 422 before `agent_chat` runs), then the handler runs. -/
def chatEndpoint (st : QuotaStore) (now : Nat) (user_id mode message : String)
    (apiKey model : Option String) (provider : Except String String) :
    ChatOutcome × QuotaStore :=
  if validChatMode mode then
    agent_chat st now user_id mode message apiKey model provider
  else
    (.validationError, st)

/-- Whether `pat` occurs as a contiguous substring of `s` (the Python
`pat in s` test on strings), on the underlying character lists. -/
def charSub (pat s : List Char) : Bool :=
  match s with
  | [] => pat.isEmpty
  | _ :: t => pat.isPrefixOf s || charSub pat t

/-- String version of `charSub`. -/
def strContainsSub (s pat : String) : Bool :=
  charSub pat.data s.data

/-- The fixed 402 `detail` of the TTS quota branch (`main.py` line 1829). -/
def ttsPaymentDetail : String :=
  "当前语音额度不足，暂时只能使用文字学习功能。如需开启朗读功能，请为 API 充值或更换有额度的密钥。"

/-- `tts(req)` from `main.py` lines 1806-1831.  The provider call
`client.audio.speech.create` is a black box whose outcome (raised
exception text, or audio bytes) is an argument; audio bytes are modelled
as a list of byte values. -/
def tts (apiKey ttsModel : Option String) (voice text : String)
    (provider : Except String (List Nat)) : HttpResult (List Nat) :=
  if ¬ (truthy apiKey && truthy ttsModel) then
    .httpError 500 "TTS not configured"
  else
    match provider with
    | .ok audio => .ok audio
    | .error e =>
        if strContainsSub e "insufficient_quota" ||
            strContainsSub e "You exceeded your current quota" then
          .httpError 402 ttsPaymentDetail
        else
          .httpError 500 ("TTS failed: " ++ e)

/-- The record invariant: every stored count lies in `[1, limit]`. -/
def storeInv (st : QuotaStore) : Prop :=
  ∀ k info, storeGet st k = some info →
    1 ≤ info.count ∧ info.count ≤ FREE_LIMIT_PER_DAY

theorem storeGet_storeSet (st : QuotaStore) (u k : String) (v : UsageInfo) :
    storeGet (storeSet st u v) k = if u = k then some v else storeGet st k := by
  induction st with
  | nil => simp [storeSet, storeGet]
  | cons hd tl ih =>
      obtain ⟨k', v'⟩ := hd
      by_cases h1 : k' = u
      · subst h1
        by_cases h2 : k' = k <;> simp [storeSet, storeGet, h2]
      · by_cases h2 : k' = k
        · subst h2
          have : ¬ u = k' := fun h => h1 h.symm
          simp [storeSet, storeGet, h1, this]
        · simp [storeSet, storeGet, h1, h2, ih]

theorem check_quota_preserves_inv (st : QuotaStore) (now : Nat) (u : String)
    (h : storeInv st) : storeInv (check_quota st now u).2 := by
  intro k info hk
  unfold check_quota at hk
  cases hget : storeGet st u with
  | none =>
      rw [hget] at hk
      simp only at hk
      rw [storeGet_storeSet] at hk
      split at hk
      · cases hk
        exact ⟨le_refl 1, by norm_num [FREE_LIMIT_PER_DAY]⟩
      · exact h k info hk
  | some old =>
      rw [hget] at hk
      simp only at hk
      by_cases hreset : now ≥ old.reset
      · rw [if_pos hreset] at hk
        simp only at hk
        rw [storeGet_storeSet] at hk
        split at hk
        · cases hk
          exact ⟨le_refl 1, by norm_num [FREE_LIMIT_PER_DAY]⟩
        · exact h k info hk
      · rw [if_neg hreset] at hk
        by_cases hlim : old.count ≥ FREE_LIMIT_PER_DAY
        · rw [if_pos hlim] at hk
          exact h k info hk
        · rw [if_neg hlim] at hk
          simp only at hk
          rw [storeGet_storeSet] at hk
          split at hk
          · cases hk
            refine ⟨Nat.le_add_left 1 old.count, ?_⟩
            exact Nat.succ_le_of_lt (Nat.lt_of_not_ge hlim)
          · exact h k info hk

theorem runQuota_inv (reqs : List (Nat × String)) : storeInv (runQuota reqs) := by
  suffices h : ∀ (st : QuotaStore), storeInv st →
      storeInv (reqs.foldl (fun st r => (check_quota st r.1 r.2).2) st) by
    exact h [] (fun k info hk => by simp [storeGet] at hk)
  induction reqs with
  | nil => intro st hst; exact hst
  | cons r rest ih =>
      intro st hst
      exact ih _ (check_quota_preserves_inv st r.1 r.2 hst)

/-- Helper: inside an unexpired window, an exhausted record is rejected
and the store is untouched. -/
theorem check_quota_reject_eq (st : QuotaStore) (now : Nat) (u : String)
    (info : UsageInfo) (h1 : storeGet st u = some info)
    (h2 : now < info.reset) (h3 : info.count ≥ FREE_LIMIT_PER_DAY) :
    check_quota st now u = (.rejected 429 quotaRejectDetail, st) := by
  unfold check_quota
  rw [h1]
  have hnr : ¬ now ≥ info.reset := Nat.not_le.mpr h2
  simp [hnr, h3]

/-- Helper: inside an unexpired window, a non-exhausted record is
admitted and its count incremented. -/
theorem check_quota_admit_eq (st : QuotaStore) (now : Nat) (u : String)
    (info : UsageInfo) (h1 : storeGet st u = some info)
    (h2 : now < info.reset) (h3 : info.count < FREE_LIMIT_PER_DAY) :
    check_quota st now u =
      (.admitted, storeSet st u ⟨info.count + 1, info.reset⟩) := by
  unfold check_quota
  rw [h1]
  have hnr : ¬ now ≥ info.reset := Nat.not_le.mpr h2
  have hnl : ¬ info.count ≥ FREE_LIMIT_PER_DAY := Nat.not_le.mpr h3
  simp [hnr, hnl]

/-- Number of admitted calls when identity `k` issues requests at the
given times, in order, against store `st`. -/
def admitRun : QuotaStore → String → List Nat → Nat
  | _, _, [] => 0
  | st, k, t :: ts =>
      match check_quota st t k with
      | (.admitted, st') => 1 + admitRun st' k ts
      | (.rejected _ _, st') => admitRun st' k ts

theorem admitRun_window_bound (ts : List Nat) :
    ∀ (st : QuotaStore) (k : String) (c r : Nat),
      storeGet st k = some ⟨c, r⟩ → c ≤ FREE_LIMIT_PER_DAY →
      (∀ t ∈ ts, t < r) →
      c + admitRun st k ts ≤ FREE_LIMIT_PER_DAY := by
  induction ts with
  | nil =>
      intro st k c r _ hc _
      simpa [admitRun] using hc
  | cons t ts ih =>
      intro st k c r hget hc hts
      have ht : t < r := hts t (List.mem_cons_self t ts)
      have hts' : ∀ t' ∈ ts, t' < r :=
        fun t' ht' => hts t' (List.mem_cons_of_mem t ht')
      rcases Nat.lt_or_ge c FREE_LIMIT_PER_DAY with hlt | hge
      · have hcq := check_quota_admit_eq st t k ⟨c, r⟩ hget ht hlt
        simp only [admitRun, hcq]
        have hst' : storeGet (storeSet st k ⟨c + 1, r⟩) k = some ⟨c + 1, r⟩ := by
          rw [storeGet_storeSet]; simp
        have := ih (storeSet st k ⟨c + 1, r⟩) k (c + 1) r hst'
          (Nat.succ_le_of_lt hlt) hts'
        omega
      · have hcq := check_quota_reject_eq st t k ⟨c, r⟩ hget ht hge
        simp only [admitRun, hcq]
        exact ih st k c r hget hc hts'

/-- C1: (i) after any chronological sequence of `check_quota` calls from
the empty store, every stored record satisfies
`0 ≤ count ≤ FREE_LIMIT_PER_DAY`; (ii) within one window — further
requests strictly before the record's `reset` — an identity whose record
holds `count = c` receives at most `limit - c` more admissions, so a
window opened with `count = 1` admits at most `limit` requests overall. -/
theorem quota_limit_per_window :
    (∀ reqs k info, storeGet (runQuota reqs) k = some info →
      0 ≤ info.count ∧ info.count ≤ FREE_LIMIT_PER_DAY) ∧
    (∀ ts st k c r, storeGet st k = some ⟨c, r⟩ →
      c ≤ FREE_LIMIT_PER_DAY → (∀ t ∈ ts, t < r) →
      c + admitRun st k ts ≤ FREE_LIMIT_PER_DAY) :=
  ⟨fun reqs k info h => ⟨Nat.zero_le _, (runQuota_inv reqs k info h).2⟩,
    fun ts st k c r h1 h2 h3 => admitRun_window_bound ts st k c r h1 h2 h3⟩

/-- Witness for `quota_limit_per_window` at concrete traces. -/
theorem quota_limit_per_window_witness :
    (storeGet (runQuota [(0, "u1"), (1, "u1"), (2, "u2")]) "u1" =
        some ⟨2, ONE_DAY⟩ ∧
      (0 ≤ (2 : Nat) ∧ 2 ≤ FREE_LIMIT_PER_DAY)) ∧
    (storeGet [("u1", ⟨1, 86400⟩)] "u1" = some ⟨1, 86400⟩ ∧
      1 + admitRun [("u1", ⟨1, 86400⟩)] "u1" [1, 2, 3] ≤
        FREE_LIMIT_PER_DAY) :=
  ⟨⟨by decide,
      quota_limit_per_window.1 [(0, "u1"), (1, "u1"), (2, "u2")] "u1"
        ⟨2, ONE_DAY⟩ (by decide)⟩,
    ⟨by decide,
      quota_limit_per_window.2 [1, 2, 3] [("u1", ⟨1, 86400⟩)] "u1" 1 86400
        (by decide) (by decide) (by decide)⟩⟩

/-- C2: if the identity has no record, or the current time is at or past
the record's reset, the next `check_quota` call admits and replaces the
record with `count = 1`, `reset = now + 24h`. -/
theorem quota_reset_monotone (st : QuotaStore) (now : Nat) (u : String)
    (h : storeGet st u = none ∨
      ∃ info, storeGet st u = some info ∧ now ≥ info.reset) :
    check_quota st now u = (.admitted, storeSet st u ⟨1, now + ONE_DAY⟩) := by
  unfold check_quota
  rcases h with h | ⟨info, hinfo, hreset⟩
  · rw [h]
  · rw [hinfo]
    simp only [if_pos hreset]

/-- Witness for `quota_reset_monotone`: an expired record is replaced. -/
theorem quota_reset_monotone_witness :
    (∃ info, storeGet [("u1", ⟨10, 5⟩)] "u1" = some info ∧ 7 ≥ info.reset) ∧
    check_quota [("u1", (⟨10, 5⟩ : UsageInfo))] 7 "u1" =
      (.admitted, [("u1", ⟨1, 7 + ONE_DAY⟩)]) :=
  ⟨⟨⟨10, 5⟩, by decide, by decide⟩,
    quota_reset_monotone [("u1", ⟨10, 5⟩)] 7 "u1"
      (Or.inr ⟨⟨10, 5⟩, by decide, by decide⟩)⟩

/-- Helper: whenever `check_quota` admits, the identity's entry in the
resulting store is either a fresh window `⟨1, now + 24h⟩` or the old
record with its count incremented. -/
theorem check_quota_admitted_update (st : QuotaStore) (now : Nat) (u : String)
    (h : (check_quota st now u).1 = .admitted) :
    storeGet (check_quota st now u).2 u = some ⟨1, now + ONE_DAY⟩ ∨
    ∃ old, storeGet st u = some old ∧
      storeGet (check_quota st now u).2 u = some ⟨old.count + 1, old.reset⟩ := by
  unfold check_quota at h ⊢
  cases hget : storeGet st u with
  | none =>
      left
      simp [storeGet_storeSet]
  | some old =>
      rw [hget] at h
      by_cases hr : now ≥ old.reset
      · left
        simp [hr, storeGet_storeSet]
      · by_cases hl : old.count ≥ FREE_LIMIT_PER_DAY
        · simp [hr, hl] at h
        · right
          refine ⟨old, rfl, ?_⟩
          simp [hr, hl, storeGet_storeSet]

/-- C4 counterexample: the 429 rejection payload is the same fixed string
for two records that differ only in `reset_at`, so it carries no reset
timing derived from `reset_at`. -/
theorem quota_reject_ignores_reset_at :
    (check_quota [("u1", ⟨10, 100⟩)] 0 "u1").1 =
      .rejected 429 quotaRejectDetail ∧
    (check_quota [("u1", ⟨10, 999999999⟩)] 0 "u1").1 =
      .rejected 429 quotaRejectDetail := ⟨rfl, rfl⟩

/-- C4 amended: an exhausted identity inside an unexpired window is
rejected with status 429 and the fixed bilingual detail string; the store
is unchanged and the payload does not depend on `reset_at`. -/
theorem quota_reject_429_fixed_detail (st : QuotaStore) (now : Nat)
    (u : String) (info : UsageInfo) (h1 : storeGet st u = some info)
    (h2 : now < info.reset) (h3 : info.count ≥ FREE_LIMIT_PER_DAY) :
    check_quota st now u = (.rejected 429 quotaRejectDetail, st) := by
  unfold check_quota
  rw [h1]
  have hnr : ¬ now ≥ info.reset := Nat.not_le.mpr h2
  simp [hnr, h3]

/-- Witness for `quota_reject_429_fixed_detail`. -/
theorem quota_reject_429_fixed_detail_witness :
    (storeGet [("u1", ⟨10, 50⟩)] "u1" = some ⟨10, 50⟩ ∧ (0 : Nat) < 50 ∧
      (10 : Nat) ≥ FREE_LIMIT_PER_DAY) ∧
    check_quota [("u1", ⟨10, 50⟩)] 0 "u1" =
      (.rejected 429 quotaRejectDetail, [("u1", ⟨10, 50⟩)]) :=
  ⟨⟨by decide, by decide, by decide⟩,
    quota_reject_429_fixed_detail [("u1", ⟨10, 50⟩)] 0 "u1" ⟨10, 50⟩
      (by decide) (by decide) (by decide)⟩

/-- C5 counterexample: a chat request with unrecognized mode `"xyz"` is
rejected by `ChatRequest` validation (422), even with a fresh identity,
full configuration and a succeeding provider — it does not succeed. -/
theorem chat_unknown_mode_rejected :
    chatEndpoint [] 0 "u1" "xyz" "hello" (some "key") (some "model")
        (.ok "reply") = (.validationError, []) ∧
    validChatMode "xyz" = false := ⟨rfl, rfl⟩

/-- C5 amended: every mode string outside the `ChatRequest` `Literal` set
is rejected at request validation, so the chat call never runs for it;
`build_system_prompt` itself does map any such string to the generic
fallback persona, but the endpoint never reaches it. -/
theorem chat_unknown_mode_fallback (st : QuotaStore) (now : Nat)
    (user_id mode message : String) (apiKey model : Option String)
    (provider : Except String String) (h : validChatMode mode = false) :
    chatEndpoint st now user_id mode message apiKey model provider =
      (.validationError, st) ∧
    build_system_prompt mode = fallbackPrompt := by
  constructor
  · unfold chatEndpoint
    rw [h]
    simp
  · simp only [validChatMode, chatModeLiterals] at h
    simp only [List.contains_cons, List.contains_nil, Bool.or_eq_false_iff,
      beq_eq_false_iff_ne, ne_eq] at h
    obtain ⟨h1, h2, h3, h4, h5, h6, h7, h8, h9, h10, h11, h12, h13, h14,
      h15, h16, h17, -⟩ := h
    simp [build_system_prompt, normalize_mode, fallbackPrompt, structuredModes,
      h1, h2, h3, h4, h5, h6, h7, h8, h9, h10, h11, h12, h13, h14, h15, h16, h17]

/-- Witness for `chat_unknown_mode_fallback` at mode `"xyz"`. -/
theorem chat_unknown_mode_fallback_witness :
    validChatMode "xyz" = false ∧
    (chatEndpoint [] 0 "u1" "xyz" "hi" (some "k") (some "m") (.ok "r") =
        (.validationError, []) ∧
      build_system_prompt "xyz" = fallbackPrompt) :=
  ⟨by decide,
    chat_unknown_mode_fallback [] 0 "u1" "xyz" "hi" (some "k") (some "m")
      (.ok "r") (by decide)⟩

/-- Helper: an if-then-else of non-empty strings is non-empty. -/
theorem ite_ne_empty {c : Prop} [Decidable c] {a b : String}
    (ha : a ≠ "") (hb : b ≠ "") : (if c then a else b) ≠ "" := by
  split <;> assumption

/-- C6: `build_system_prompt` is total and never returns the empty
string: every input mode, recognized or not, yields a non-empty system
instruction. -/
theorem build_system_prompt_total_nonempty (mode : String) :
    build_system_prompt mode ≠ "" := by
  simp only [build_system_prompt]
  apply ite_ne_empty (by decide)
  apply ite_ne_empty (by decide)
  apply ite_ne_empty (by decide)
  apply ite_ne_empty (by decide)
  apply ite_ne_empty (by decide)
  apply ite_ne_empty (by decide)
  apply ite_ne_empty (by decide)
  apply ite_ne_empty (by decide)
  apply ite_ne_empty (by decide)
  apply ite_ne_empty (by decide)
  apply ite_ne_empty (by decide)
  apply ite_ne_empty (by decide)
  apply ite_ne_empty (by decide)
  apply ite_ne_empty (by decide)
  decide

/-- The canonical (non-alias) mode keys of the persona table. -/
def canonicalModes : List String :=
  ["daily", "service", "office", "campus", "family", "parenting", "medical",
   "housing", "travel", "kansai", "culture", "gossip", "comfort_soft",
   "comfort_calm"]

/-- C7: each deprecated alias resolves to exactly the
`(system_instruction, template)` pair of its canonical key, and
normalization is the identity on every canonical key. -/
theorem alias_normalization_equiv :
    (∀ msg, resolvePersona "tutor" msg = resolvePersona "daily" msg) ∧
    (∀ msg, resolvePersona "otaku_waifu" msg =
      resolvePersona "comfort_soft" msg) ∧
    (∀ msg, resolvePersona "otaku_boyfriend" msg =
      resolvePersona "comfort_calm" msg) ∧
    canonicalModes.all (fun m => normalize_mode m == m) = true :=
  ⟨fun _ => rfl, fun _ => rfl, fun _ => rfl, by decide⟩

/-- C8: once an identity is admitted, a provider failure surfaces as a
500 whose detail is the prefix `LLM request failed: ` followed by the
underlying provider error text, and the final store is exactly the
post-admission store — the consumed quota slot is not refunded. -/
theorem chat_provider_failure_no_refund (st : QuotaStore) (now : Nat)
    (user_id mode message : String) (apiKey model : Option String)
    (e : String) (hkey : truthy apiKey = true) (hmodel : truthy model = true)
    (hadm : (check_quota st now user_id).1 = .admitted) :
    agent_chat st now user_id mode message apiKey model (.error e) =
      (.httpError 500 ("LLM request failed: " ++ e),
        (check_quota st now user_id).2) := by
  unfold agent_chat
  rcases hcq : check_quota st now user_id with ⟨r, st2⟩
  rw [hcq] at hadm
  simp only at hadm
  subst hadm
  simp [call_llm, hkey, hmodel]

/-- Witness for `chat_provider_failure_no_refund` on a fresh identity. -/
theorem chat_provider_failure_no_refund_witness :
    (truthy (some "k") = true ∧ truthy (some "m") = true ∧
      (check_quota [] 0 "u1").1 = .admitted) ∧
    agent_chat [] 0 "u1" "daily" "hello" (some "k") (some "m")
        (.error "boom") =
      (.httpError 500 ("LLM request failed: " ++ "boom"),
        (check_quota [] 0 "u1").2) :=
  ⟨⟨by decide, by decide, by decide⟩,
    chat_provider_failure_no_refund [] 0 "u1" "daily" "hello" (some "k")
      (some "m") "boom" (by decide) (by decide) (by decide)⟩

/-- C9: with TTS configured, a provider failure whose message contains an
`insufficient_quota` / `You exceeded your current quota` marker yields the
distinct 402 payment-required error with guidance text, and every other
provider failure yields the generic 500 error. -/
theorem tts_quota_vs_generic (apiKey ttsModel : Option String)
    (voice text e : String) (hkey : truthy apiKey = true)
    (hmodel : truthy ttsModel = true) :
    ((strContainsSub e "insufficient_quota" = true ∨
        strContainsSub e "You exceeded your current quota" = true) →
      tts apiKey ttsModel voice text (.error e) =
        .httpError 402 ttsPaymentDetail) ∧
    (strContainsSub e "insufficient_quota" = false →
      strContainsSub e "You exceeded your current quota" = false →
      tts apiKey ttsModel voice text (.error e) =
        .httpError 500 ("TTS failed: " ++ e)) := by
  unfold tts
  rw [hkey, hmodel]
  constructor
  · rintro (h | h) <;> simp [h]
  · intro h1 h2
    simp [h1, h2]

/-- Witness for `tts_quota_vs_generic`: one quota-marked failure, one
generic failure. -/
theorem tts_quota_vs_generic_witness :
    (truthy (some "k") = true ∧ truthy (some "m") = true) ∧
    tts (some "k") (some "m") "alloy" "hi"
        (.error "Error code: 429 - insufficient_quota") =
      .httpError 402 ttsPaymentDetail ∧
    tts (some "k") (some "m") "alloy" "hi" (.error "connection reset") =
      .httpError 500 ("TTS failed: " ++ "connection reset") :=
  ⟨⟨by decide, by decide⟩,
    (tts_quota_vs_generic (some "k") (some "m") "alloy" "hi"
        "Error code: 429 - insufficient_quota" (by decide) (by decide)).1
      (Or.inl (by decide)),
    (tts_quota_vs_generic (some "k") (some "m") "alloy" "hi"
        "connection reset" (by decide) (by decide)).2 (by decide) (by decide)⟩

/-- C10: when the identity still has quota, a missing LLM configuration
makes `agent_chat` fail with the server-configuration 500, yet the quota
slot is consumed: the store keeps the admission's mutation, i.e. the
identity now holds a fresh `⟨1, now + 24h⟩` window or its old count
incremented. -/
theorem chat_config_missing_consumes_quota (st : QuotaStore) (now : Nat)
    (user_id mode message : String) (apiKey model : Option String)
    (provider : Except String String)
    (hcfg : (truthy apiKey && truthy model) = false)
    (hadm : (check_quota st now user_id).1 = .admitted) :
    agent_chat st now user_id mode message apiKey model provider =
      (.httpError 500 "LLM configuration missing",
        (check_quota st now user_id).2) ∧
    (storeGet (check_quota st now user_id).2 user_id =
        some ⟨1, now + ONE_DAY⟩ ∨
      ∃ old, storeGet st user_id = some old ∧
        storeGet (check_quota st now user_id).2 user_id =
          some ⟨old.count + 1, old.reset⟩) := by
  refine ⟨?_, check_quota_admitted_update st now user_id hadm⟩
  unfold agent_chat
  rcases hcq : check_quota st now user_id with ⟨r, st2⟩
  rw [hcq] at hadm
  simp only at hadm
  subst hadm
  simp [call_llm, hcfg]

/-- Witness for `chat_config_missing_consumes_quota`: unset API key,
fresh identity. -/
theorem chat_config_missing_consumes_quota_witness :
    ((truthy none && truthy (some "m")) = false ∧
      (check_quota [] 0 "u1").1 = .admitted) ∧
    (agent_chat [] 0 "u1" "daily" "hello" none (some "m") (.ok "r") =
        (.httpError 500 "LLM configuration missing",
          (check_quota [] 0 "u1").2) ∧
      (storeGet (check_quota [] 0 "u1").2 "u1" = some ⟨1, 0 + ONE_DAY⟩ ∨
        ∃ old, storeGet ([] : QuotaStore) "u1" = some old ∧
          storeGet (check_quota [] 0 "u1").2 "u1" =
            some ⟨old.count + 1, old.reset⟩)) :=
  ⟨⟨by decide, by decide⟩,
    chat_config_missing_consumes_quota [] 0 "u1" "daily" "hello" none
      (some "m") (.ok "r") (by decide) (by decide)⟩

end JpDrama
